import Mathlib

/-!
Verification of the direct transcription pipeline
(`apps/web/lib/transcribe-direct.ts`).

The embedding models the pure helpers (`formatTime`, `formatToWebVTT`)
directly, and models the stateful pipeline (`transcribeVideoDirect`) and the
provider client (`transcribeWithAssemblyAI`) as pure functions over an
explicit oracle environment: every external call's outcome (database query
rows, storage operations, HTTP probes, provider responses) is an input, and
every externally visible action is recorded in an event trace.
-/

/-- JS `String.prototype.padStart` with a single-character pad: prepend copies
of `c` until the length is at least `n`; never truncates. -/
def padStart (s : String) (n : Nat) (c : Char) : String :=
  String.mk (List.replicate (n - s.length) c) ++ s

/-- `formatTime` from the source: split milliseconds into
hours / minutes / seconds / milliseconds and render zero-padded. -/
def formatTime (ms : Nat) : String :=
  let totalSeconds := ms / 1000
  let hours := totalSeconds / 3600
  let minutes := (totalSeconds % 3600) / 60
  let seconds := totalSeconds % 60
  let milliseconds := ms % 1000
  padStart (toString hours) 2 '0' ++ ":" ++ padStart (toString minutes) 2 '0'
    ++ ":" ++ padStart (toString seconds) 2 '0' ++ "."
    ++ padStart (toString milliseconds) 3 '0'

/-- The spec's time transform, written from its words: `hours = m/3600000`,
`minutes = (m/60000) mod 60`, `seconds = (m/1000) mod 60`,
`millis = m mod 1000`, rendered at widths 2 / 2 / 2 / 3. -/
def specFormatTime (m : Nat) : String :=
  padStart (toString (m / 3600000)) 2 '0' ++ ":"
    ++ padStart (toString (m / 60000 % 60)) 2 '0' ++ ":"
    ++ padStart (toString (m / 1000 % 60)) 2 '0' ++ "."
    ++ padStart (toString (m % 1000)) 3 '0'

theorem formatTime_eq_spec (m : Nat) : formatTime m = specFormatTime m := by
  have h1 : m / 1000 / 3600 = m / 3600000 := by omega
  have h2 : m / 1000 % 3600 / 60 = m / 60000 % 60 := by omega
  have h3 : m / 1000 % 60 = m / 1000 % 60 := rfl
  simp only [formatTime, specFormatTime]
  rw [h1, h2]

/-- One speaker-attributed utterance (source interface `AssemblyAIUtterance`).
The source field `end` is a Lean keyword, so it is named `endMs` here. -/
structure AssemblyAIUtterance where
  speaker : String
  text : String
  start : Nat
  endMs : Nat
deriving DecidableEq

/-- Source interface `AssemblyAIResult`. `text`, `utterances` and `error` may
be absent at runtime (the code guards for that), hence `Option`. -/
structure AssemblyAIResult where
  id : String
  status : String
  text : Option String
  utterances : Option (List AssemblyAIUtterance)
  error : Option String
deriving DecidableEq

/-- `formatToWebVTT` from the source: header plus blank line, then either the
single plain-text fallback cue (no utterances) or one three-line cue per
utterance, all joined with newlines. -/
def formatToWebVTT (result : AssemblyAIResult) : String :=
  match result.utterances with
  | none =>
      String.intercalate "\n"
        ["WEBVTT", "", "00:00:00.000 --> 00:00:10.000", result.text.getD ""]
  | some [] =>
      String.intercalate "\n"
        ["WEBVTT", "", "00:00:00.000 --> 00:00:10.000", result.text.getD ""]
  | some (u :: us) =>
      String.intercalate "\n"
        (["WEBVTT", ""] ++ (u :: us).flatMap (fun utterance =>
          [formatTime utterance.start ++ " --> " ++ formatTime utterance.endMs,
           "<v Speaker " ++ utterance.speaker ++ ">" ++ utterance.text,
           ""]))

/-- The output lines as the spec describes them: fixed header and blank line;
for an empty utterance sequence exactly one placeholder cue spanning
`00:00:00.000 --> 00:00:10.000` holding the plain-text fallback; otherwise one
cue per utterance in input order, each a time-range line (using the spec's
time transform), a `<v Speaker ...>` line and a blank line. -/
def specVTTLines (result : AssemblyAIResult) : List String :=
  match result.utterances with
  | none =>
      ["WEBVTT", "", "00:00:00.000 --> 00:00:10.000", result.text.getD ""]
  | some [] =>
      ["WEBVTT", "", "00:00:00.000 --> 00:00:10.000", result.text.getD ""]
  | some (u :: us) =>
      ["WEBVTT", ""] ++ (u :: us).flatMap (fun utterance =>
        [specFormatTime utterance.start ++ " --> " ++ specFormatTime utterance.endMs,
         "<v Speaker " ++ utterance.speaker ++ ">" ++ utterance.text,
         ""])

/-- **C7** — `formatToWebVTT` produces exactly the line structure the spec
describes: header line and blank line first; for a non-empty utterance
sequence one cue per utterance in input order (time-range line, then
`<v Speaker {speaker}>{text}`, then a blank line); for an empty sequence a
single placeholder cue `00:00:00.000 --> 00:00:10.000` with the plain-text
fallback (empty string if none). -/
theorem c7_formatToWebVTT_matches_spec (result : AssemblyAIResult) :
    formatToWebVTT result = String.intercalate "\n" (specVTTLines result) := by
  unfold formatToWebVTT specVTTLines
  match h : result.utterances with
  | none => rfl
  | some [] => rfl
  | some (u :: us) =>
      simp only [formatTime_eq_spec]

/-- **C8** — `formatTime` realizes the spec's pure integer transform
(`hours = m/3600000`, `minutes = (m/60000) mod 60`, `seconds = (m/1000) mod 60`,
`millis = m mod 1000`, truncating division), and the three concrete examples
hold: `formatTime 0 = "00:00:00.000"`, `formatTime 3661005 = "01:01:01.005"`,
`formatTime 59999 = "00:00:59.999"`. -/
theorem c8_formatTime_integer_transform :
    (∀ m : Nat, formatTime m = specFormatTime m)
    ∧ formatTime 0 = "00:00:00.000"
    ∧ formatTime 3661005 = "01:01:01.005"
    ∧ formatTime 59999 = "00:00:59.999" :=
  ⟨formatTime_eq_spec, by decide, by decide, by decide⟩

theorem padStart_length (s : String) (n : Nat) (c : Char) :
    (padStart s n c).length = (n - s.length) + s.length := by
  rw [padStart, String.length_append, String.length_mk, List.length_replicate]

theorem toString_length_le_two : ∀ n : Nat, n < 100 → (toString n).length ≤ 2 := by
  have h : ∀ i : Fin 100, (toString i.val).length ≤ 2 := by decide
  intro n hn
  exact h ⟨n, hn⟩

set_option maxRecDepth 4000 in
theorem toString_length_le_three : ∀ n : Nat, n < 1000 → (toString n).length ≤ 3 := by
  have h : ∀ i : Fin 1000, (toString i.val).length ≤ 3 := by decide
  intro n hn
  exact h ⟨n, hn⟩

/-- **C10** — for every non-negative integer `m`, `formatTime m` decomposes
into hours, minutes, seconds and milliseconds fields with minutes and seconds
in `0..59` and milliseconds in `0..999`, the minutes/seconds fields rendered
at width exactly 2 and the milliseconds field at width exactly 3, while the
hours field is the full (never truncated) numeral of `m / 3600000`, a quotient
that takes every value as `m` grows. -/
theorem c10_formatTime_field_bounds :
    (∀ m : Nat, formatTime m =
      padStart (toString (m / 3600000)) 2 '0' ++ ":"
        ++ padStart (toString (m / 60000 % 60)) 2 '0' ++ ":"
        ++ padStart (toString (m / 1000 % 60)) 2 '0' ++ "."
        ++ padStart (toString (m % 1000)) 3 '0')
    ∧ (∀ m : Nat, m / 60000 % 60 ≤ 59 ∧ m / 1000 % 60 ≤ 59 ∧ m % 1000 ≤ 999)
    ∧ (∀ m : Nat,
        (padStart (toString (m / 60000 % 60)) 2 '0').length = 2
        ∧ (padStart (toString (m / 1000 % 60)) 2 '0').length = 2
        ∧ (padStart (toString (m % 1000)) 3 '0').length = 3)
    ∧ (∀ m : Nat,
        (toString (m / 3600000)).length
          ≤ (padStart (toString (m / 3600000)) 2 '0').length)
    ∧ (∀ k : Nat, ∃ m : Nat, m / 3600000 = k) := by
  refine ⟨fun m => ?_, fun m => ⟨?_, ?_, ?_⟩, fun m => ⟨?_, ?_, ?_⟩, fun m => ?_, fun k => ?_⟩
  · rw [formatTime_eq_spec]; rfl
  · omega
  · omega
  · omega
  · have h := toString_length_le_two (m / 60000 % 60) (by omega)
    rw [padStart_length]; omega
  · have h := toString_length_le_two (m / 1000 % 60) (by omega)
    rw [padStart_length]; omega
  · have h := toString_length_le_three (m % 1000) (by omega)
    rw [padStart_length]; omega
  · rw [padStart_length]; omega
  · exact ⟨k * 3600000, by omega⟩

/-- JS truthiness of an optional string credential (`if (!apiKey)`): absent or
empty counts as missing. -/
def isTruthy (s : Option String) : Bool :=
  match s with
  | none => false
  | some v => v != ""

/-- One iteration's worth of input to the AssemblyAI poll loop: either the
poll HTTP request is not ok (carrying its status code), or it yields a parsed
`AssemblyAIResult`. -/
inductive PollStep
  | httpFail (code : Nat)
  | ok (result : AssemblyAIResult)
deriving DecidableEq

/-- The poll loop of `transcribeWithAssemblyAI`, driven by the oracle list of
poll responses. `none` means the loop would keep polling past the supplied
responses (the source loop has no bound). A failed poll request raises; a
`completed` status breaks with the result; an `error` status raises; anything
else polls again. -/
def pollLoop : List PollStep → Option (Except String AssemblyAIResult)
  | [] => none
  | PollStep.httpFail code :: _ =>
      some (Except.error ("AssemblyAI poll failed: " ++ toString code))
  | PollStep.ok result :: rest =>
      if result.status = "completed" then some (Except.ok result)
      else if result.status = "error" then
        some (Except.error ("AssemblyAI error: " ++ result.error.getD "undefined"))
      else pollLoop rest

/-- A poll response on which the loop stops: a failed poll request, or a job
in terminal status `completed` or `error`. -/
def isDecisive : PollStep → Bool
  | PollStep.httpFail _ => true
  | PollStep.ok result => result.status == "completed" || result.status == "error"

/-- The first poll response on which the loop stops, if any. -/
def firstTerminal (polls : List PollStep) : Option PollStep :=
  polls.find? isDecisive

/-- A decisive poll response that makes the call fail: a failed poll request
or a terminal `error` status. -/
def stepFails : PollStep → Bool
  | PollStep.httpFail _ => true
  | PollStep.ok result => result.status == "error"

/-- `transcribeWithAssemblyAI` from the source, over an oracle for the
submission response and the sequence of poll responses. `none` means the call
never terminates (unbounded polling with no decisive response). -/
def transcribeWithAssemblyAI (apiKey : Option String)
    (submit : Except String String) (polls : List PollStep) :
    Option (Except String String) :=
  if isTruthy apiKey = false then
    some (Except.error "Missing ASSEMBLYAI_API_KEY")
  else
    match submit with
    | Except.error e => some (Except.error ("AssemblyAI submit failed: " ++ e))
    | Except.ok _jobId =>
        match pollLoop polls with
        | none => none
        | some (Except.error e) => some (Except.error e)
        | some (Except.ok result) => some (Except.ok (formatToWebVTT result))

theorem firstTerminal_cons_decisive (p : PollStep) (rest : List PollStep)
    (h : isDecisive p = true) : firstTerminal (p :: rest) = some p := by
  simp [firstTerminal, List.find?_cons_of_pos, h]

theorem firstTerminal_cons_skip (p : PollStep) (rest : List PollStep)
    (h : isDecisive p = false) : firstTerminal (p :: rest) = firstTerminal rest := by
  simp [firstTerminal, List.find?_cons_of_neg, h]

theorem pollLoop_error_iff (polls : List PollStep) :
    (∃ e, pollLoop polls = some (Except.error e))
      ↔ ∃ p, firstTerminal polls = some p ∧ stepFails p = true := by
  induction polls with
  | nil => simp [pollLoop, firstTerminal]
  | cons head rest ih =>
      cases head with
      | httpFail code =>
          rw [firstTerminal_cons_decisive _ _ (by simp [isDecisive])]
          simp [pollLoop, stepFails]
      | ok result =>
          by_cases hc : result.status = "completed"
          · rw [firstTerminal_cons_decisive _ _ (by simp [isDecisive, hc])]
            simp [pollLoop, stepFails, hc]
          · by_cases he : result.status = "error"
            · rw [firstTerminal_cons_decisive _ _ (by simp [isDecisive, he])]
              simp [pollLoop, stepFails, hc, he]
            · rw [firstTerminal_cons_skip _ _ (by simp [isDecisive, hc, he])]
              rw [show pollLoop (PollStep.ok result :: rest) = pollLoop rest by
                simp [pollLoop, hc, he]]
              exact ih

theorem pollLoop_completed (polls : List PollStep) (result : AssemblyAIResult)
    (hft : firstTerminal polls = some (PollStep.ok result))
    (hc : result.status = "completed") :
    pollLoop polls = some (Except.ok result) := by
  induction polls with
  | nil => simp [firstTerminal, List.find?] at hft
  | cons head rest ih =>
      by_cases hd : isDecisive head = true
      · rw [firstTerminal_cons_decisive _ _ hd] at hft
        injection hft with h
        subst h
        simp [pollLoop, hc]
      · rw [firstTerminal_cons_skip _ _ (by simpa using hd)] at hft
        have hrec := ih hft
        cases head with
        | httpFail code => simp [isDecisive] at hd
        | ok r =>
            have h12 : ¬(r.status = "completed") ∧ ¬(r.status = "error") := by
              simpa [isDecisive] using hd
            simp [pollLoop, h12.1, h12.2, hrec]

/-- **C9** — with the credential present, `transcribeWithAssemblyAI` fails
with an error exactly when the job submission fails, or the first decisive
poll response is a failed poll request or a terminal `error` job status; and
when submission succeeds and the first decisive poll response is a job in
terminal status `completed`, it returns the formatted transcript instead of
failing. -/
theorem c9_transcribe_failure_modes (apiKey : Option String)
    (submit : Except String String) (polls : List PollStep)
    (hkey : isTruthy apiKey = true) :
    ((∃ e, transcribeWithAssemblyAI apiKey submit polls = some (Except.error e))
        ↔ ((∃ e, submit = Except.error e)
            ∨ ∃ p, firstTerminal polls = some p ∧ stepFails p = true))
    ∧ (∀ jobId result, submit = Except.ok jobId →
        firstTerminal polls = some (PollStep.ok result) →
        result.status = "completed" →
        transcribeWithAssemblyAI apiKey submit polls
          = some (Except.ok (formatToWebVTT result))) := by
  constructor
  · cases submit with
    | error e =>
        simp only [transcribeWithAssemblyAI, hkey]
        simp
    | ok jobId =>
        simp only [transcribeWithAssemblyAI, hkey]
        rw [← pollLoop_error_iff]
        cases hp : pollLoop polls with
        | none => simp
        | some r =>
            cases r with
            | error e => simp
            | ok result => simp
  · intro jobId result hsub hft hc
    subst hsub
    simp only [transcribeWithAssemblyAI, hkey]
    rw [pollLoop_completed polls result hft hc]
    simp

/-- The `transcriptionStatus` values this pipeline writes. The database field
is nullable; `Option TStatus` with `none` models the `UNSET` (null) state. -/
inductive TStatus
  | SKIPPED
  | PROCESSING
  | NO_AUDIO
  | COMPLETE
deriving DecidableEq

/-- Externally visible actions of one pipeline run, in order. -/
inductive Event
  | setStatus (s : Option TStatus)
  | getBucketAccess
  | getSignedUrl (key : String)
  | fetchProbe
  | putObject (key : String) (contentType : String)
  | transcribeCall (url : String)
  | deleteObject (key : String)
  | startAiGeneration
deriving DecidableEq

/-- Per-video settings as read by the query (`videos.settings`). -/
structure VideoSettings where
  disableTranscript : Option Bool
deriving DecidableEq

/-- Organization settings as read by the query (`organizations.settings`). -/
structure OrgSettings where
  disableTranscript : Option Bool
deriving DecidableEq

/-- The `video` column group of one query row. -/
structure VideoRow where
  settings : Option VideoSettings
deriving DecidableEq

/-- One row of the joined select: video, org settings (left join, so
optional) and bucket id (left join, so optional). -/
structure QueryRow where
  video : Option VideoRow
  orgSettings : Option OrgSettings
  bucketId : Option String
deriving DecidableEq

/-- The payload of `transcribeVideoDirect`. -/
structure Payload where
  videoId : String
  userId : String
  aiGenerationEnabled : Bool
deriving DecidableEq

/-- Oracle for every external interaction of one pipeline run: the configured
credential, whether a `videos` row with this id exists (the target of status
updates), the rows the joined select returns, and the outcome of each awaited
call in source order. An `Except.error` models that call rejecting with that
error message. -/
structure Env where
  assemblyKey : Option String
  videoExists : Bool
  queryRows : List QueryRow
  bucketAccess : Except String Unit
  signedVideoUrl : Except String String
  fetchOk : Bool
  mediaServerConfigured : Bool
  checkAudioMedia : Except String Bool
  extractMedia : Except String Unit
  checkAudioLocal : Except String Bool
  extractLocal : Except String String
  readFile : Except String Unit
  putAudio : Except String Unit
  signedAudioUrl : Except String String
  transcription : Except String String
  putTranscript : Except String Unit

/-- Run state: the video's current `transcriptionStatus` (meaningful when the
row exists) and the event trace so far. -/
abbrev RunState := Option TStatus × List Event

/-- Record an external call in the trace. -/
def logEvent (e : Event) (st : RunState) : RunState :=
  (st.1, st.2 ++ [e])

/-- A `db().update(videos).set({transcriptionStatus: s}).where(id = videoId)`:
the update is always issued (and traced); it changes the stored value only if
the row exists. -/
def setStatus (videoExists : Bool) (s : Option TStatus) (st : RunState) : RunState :=
  ((if videoExists then s else st.1), st.2 ++ [Event.setStatus s])

/-- The effective disable flag, exactly as the source computes it:
`result.video.settings?.disableTranscript ?? result.orgSettings?.disableTranscript ?? false`
(nullish coalescing: only absent values fall through). -/
def effectiveDisable (video : VideoRow) (orgSettings : Option OrgSettings) : Bool :=
  match video.settings.bind (fun s => s.disableTranscript) with
  | some b => b
  | none =>
      match orgSettings.bind (fun s => s.disableTranscript) with
      | some b => b
      | none => false

/-- The spec's resolution rule, from its words: the video-level setting if
present, otherwise the organization-level setting, otherwise `false`. -/
def specEffectiveDisable (videoSetting orgSetting : Option Bool) : Bool :=
  match videoSetting with
  | some b => b
  | none =>
      match orgSetting with
      | some b => b
      | none => false

/-- The tail of the pipeline shared by both extraction strategies: stage the
audio, sign its URL, transcribe, store the subtitle artifact, mark COMPLETE,
best-effort delete the staged audio (its failure is caught and only logged). -/
def afterExtract (p : Payload) (env : Env) (st : RunState) :
    Except (String × RunState) (String × RunState) :=
  let audioKey := p.userId ++ "/" ++ p.videoId ++ "/audio-temp.mp3"
  let st := logEvent (Event.putObject audioKey "audio/mpeg") st
  match env.putAudio with
  | Except.error e => Except.error (e, st)
  | Except.ok _ =>
      let st := logEvent (Event.getSignedUrl audioKey) st
      match env.signedAudioUrl with
      | Except.error e => Except.error (e, st)
      | Except.ok audioSignedUrl =>
          let st := logEvent (Event.transcribeCall audioSignedUrl) st
          match env.transcription with
          | Except.error e => Except.error (e, st)
          | Except.ok _transcription =>
              let st := logEvent (Event.putObject
                (p.userId ++ "/" ++ p.videoId ++ "/transcription.vtt")
                "text/vtt") st
              match env.putTranscript with
              | Except.error e => Except.error (e, st)
              | Except.ok _ =>
                  let st := setStatus env.videoExists (some TStatus.COMPLETE) st
                  let st := logEvent (Event.deleteObject audioKey) st
                  Except.ok ("Transcription completed successfully", st)

/-- The body of the `try` block of `transcribeVideoDirect`, in source order.
`Except.error` is a raised exception (with its message and the state at the
raise); `Except.ok` is a normal return (with its message and final state). -/
def runBody (p : Payload) (env : Env) (st : RunState) :
    Except (String × RunState) (String × RunState) :=
  if isTruthy env.assemblyKey = false then
    Except.error ("Missing ASSEMBLYAI_API_KEY", st)
  else
    match env.queryRows with
    | [] => Except.error ("Video does not exist", st)
    | row :: _ =>
        match row.video with
        | none => Except.error ("Video information is missing", st)
        | some video =>
            if effectiveDisable video row.orgSettings then
              let st := setStatus env.videoExists (some TStatus.SKIPPED) st
              Except.ok ("Transcription disabled - skipped", st)
            else
              let st := setStatus env.videoExists (some TStatus.PROCESSING) st
              let st := logEvent Event.getBucketAccess st
              match env.bucketAccess with
              | Except.error e => Except.error (e, st)
              | Except.ok _ =>
                  let st := logEvent (Event.getSignedUrl
                    (p.userId ++ "/" ++ p.videoId ++ "/result.mp4")) st
                  match env.signedVideoUrl with
                  | Except.error e => Except.error (e, st)
                  | Except.ok _videoUrl =>
                      let st := logEvent Event.fetchProbe st
                      if env.fetchOk = false then
                        Except.error ("Video file not accessible", st)
                      else
                        if env.mediaServerConfigured then
                          match env.checkAudioMedia with
                          | Except.error e => Except.error (e, st)
                          | Except.ok hasAudio =>
                              if hasAudio = false then
                                let st := setStatus env.videoExists
                                  (some TStatus.NO_AUDIO) st
                                Except.ok ("Video has no audio track - skipped", st)
                              else
                                match env.extractMedia with
                                | Except.error e => Except.error (e, st)
                                | Except.ok _ => afterExtract p env st
                        else
                          match env.checkAudioLocal with
                          | Except.error e => Except.error (e, st)
                          | Except.ok hasAudio =>
                              if hasAudio = false then
                                let st := setStatus env.videoExists
                                  (some TStatus.NO_AUDIO) st
                                Except.ok ("Video has no audio track - skipped", st)
                              else
                                match env.extractLocal with
                                | Except.error e => Except.error (e, st)
                                | Except.ok _filePath =>
                                    match env.readFile with
                                    | Except.error e => Except.error (e, st)
                                    | Except.ok _ => afterExtract p env st

/-- The observable outcome of one run: the returned `{success, message}` pair,
the video's `transcriptionStatus` after the run, and the event trace. -/
structure RunOutcome where
  success : Bool
  message : String
  status : Option TStatus
  events : List Event
deriving DecidableEq

/-- `transcribeVideoDirect` from the source: run the body; on any raised
exception, reset `transcriptionStatus` to null and return
`{success: false, message}` — nothing is re-raised. -/
def transcribeVideoDirect (p : Payload) (env : Env) (initStatus : Option TStatus) :
    RunOutcome :=
  match runBody p env (initStatus, []) with
  | Except.ok (msg, st) => ⟨true, msg, st.1, st.2⟩
  | Except.error (msg, st) =>
      let st := setStatus env.videoExists none st
      ⟨false, msg, st.1, st.2⟩

/-- The state a body execution ends in, whether it returned or raised. -/
def stateOf : Except (String × RunState) (String × RunState) → RunState
  | Except.ok (_, st) => st
  | Except.error (_, st) => st

def isStorageOrProviderCall : Event → Bool
  | Event.setStatus _ => false
  | Event.startAiGeneration => false
  | _ => true

/-- Whether the trace holds any object-storage or transcription-provider
call (anything besides status updates and the AI-generation trigger). -/
def hasStorageOrProviderCall (events : List Event) : Bool :=
  events.any isStorageOrProviderCall

def isTranscribeCallEv : Event → Bool
  | Event.transcribeCall _ => true
  | _ => false

/-- Whether the trace holds a transcription-provider call. -/
def hasTranscribeCall (events : List Event) : Bool :=
  events.any isTranscribeCallEv

def isStartAiEv : Event → Bool
  | Event.startAiGeneration => true
  | _ => false

/-- Whether the trace holds the downstream AI-generation trigger. -/
def hasStartAiGeneration (events : List Event) : Bool :=
  events.any isStartAiEv

/-- Whether the trace holds a `putObject` under exactly this key. -/
def hasPutObjectKey (events : List Event) (key : String) : Bool :=
  events.any fun e =>
    match e with
    | Event.putObject k _ => k == key
    | _ => false

/-- Whether the trace holds a `putObject` under exactly this key with this
content type. -/
def hasPutObjectKeyCT (events : List Event) (key contentType : String) : Bool :=
  events.any fun e =>
    match e with
    | Event.putObject k ct => k == key && ct == contentType
    | _ => false

/-- A query row for a video with no per-video settings, no org settings and
the default bucket. -/
def okRow : QueryRow := { video := some { settings := none }, orgSettings := none, bucketId := none }

def okPayload : Payload := { videoId := "v", userId := "u", aiGenerationEnabled := true }

/-- An oracle under which every external call succeeds. -/
def okEnv : Env :=
  { assemblyKey := some "test-key"
    videoExists := true
    queryRows := [okRow]
    bucketAccess := Except.ok ()
    signedVideoUrl := Except.ok "https://storage/video-signed"
    fetchOk := true
    mediaServerConfigured := true
    checkAudioMedia := Except.ok true
    extractMedia := Except.ok ()
    checkAudioLocal := Except.ok true
    extractLocal := Except.ok "/tmp/audio.mp3"
    readFile := Except.ok ()
    putAudio := Except.ok ()
    signedAudioUrl := Except.ok "https://storage/audio-signed"
    transcription := Except.ok "WEBVTT"
    putTranscript := Except.ok () }

/-- Like `okEnv` but the provider call rejects (after PROCESSING was set). -/
def providerFailEnv : Env :=
  { okEnv with transcription := Except.error "AssemblyAI submit failed: network down" }

/-- Like `okEnv` but the transcription credential is missing. -/
def noKeyEnv : Env := { okEnv with assemblyKey := none }

/-- **C1** — whenever the body raises after the `PROCESSING` status update
was issued, the run catches it, resets `transcriptionStatus` to `UNSET`
(null), and returns `{success: false}` carrying the error's message; no
error escapes (`transcribeVideoDirect` is total and always yields a
`RunOutcome`). -/
theorem c1_failure_after_processing (p : Payload) (env : Env)
    (initStatus : Option TStatus) (msg : String) (st : RunState)
    (hex : env.videoExists = true)
    (hrun : runBody p env (initStatus, []) = Except.error (msg, st))
    (hproc : Event.setStatus (some TStatus.PROCESSING) ∈ st.2) :
    (transcribeVideoDirect p env initStatus).success = false
    ∧ (transcribeVideoDirect p env initStatus).message = msg
    ∧ (transcribeVideoDirect p env initStatus).status = none := by
  simp [transcribeVideoDirect, hrun, setStatus, hex]

theorem c1_failure_after_processing_witness :
    (transcribeVideoDirect okPayload providerFailEnv none).success = false
    ∧ (transcribeVideoDirect okPayload providerFailEnv none).message
        = "AssemblyAI submit failed: network down"
    ∧ (transcribeVideoDirect okPayload providerFailEnv none).status = none :=
  c1_failure_after_processing okPayload providerFailEnv none
    "AssemblyAI submit failed: network down" _ rfl rfl (by decide)

/-- **C2 counterexample** — a pre-mutation failure (missing credential) with
an existing video does mutate `transcriptionStatus`: the catch handler resets
it to null, here destroying a prior `COMPLETE`. -/
theorem c2_counterexample_resets_status :
    (transcribeVideoDirect okPayload noKeyEnv (some TStatus.COMPLETE)).success = false
    ∧ (transcribeVideoDirect okPayload noKeyEnv (some TStatus.COMPLETE)).status
        ≠ some TStatus.COMPLETE := by decide

/-- **C2 (amended)** — every failure before `transcriptionStatus` is first
mutated (missing credential, video not found, missing video fields) fails the
run immediately with no pipeline side effects, but the catch handler still
issues one status-reset update: if the video row exists its
`transcriptionStatus` becomes `UNSET`; only when the row does not exist is
the status left unchanged. -/
theorem c2_pre_mutation_failures (p : Payload) (env : Env)
    (initStatus : Option TStatus)
    (h : isTruthy env.assemblyKey = false
        ∨ env.queryRows = []
        ∨ ∃ row rest, env.queryRows = row :: rest ∧ row.video = none) :
    (transcribeVideoDirect p env initStatus).success = false
    ∧ (transcribeVideoDirect p env initStatus).events = [Event.setStatus none]
    ∧ (transcribeVideoDirect p env initStatus).status
        = (if env.videoExists then none else initStatus) := by
  rcases h with h | h | ⟨row, rest, hq, hv⟩
  · simp [transcribeVideoDirect, runBody, h, setStatus]
  · cases hk : isTruthy env.assemblyKey with
    | false => simp [transcribeVideoDirect, runBody, hk, setStatus]
    | true => simp [transcribeVideoDirect, runBody, hk, h, setStatus]
  · cases hk : isTruthy env.assemblyKey with
    | false => simp [transcribeVideoDirect, runBody, hk, setStatus]
    | true => simp [transcribeVideoDirect, runBody, hk, hq, hv, setStatus]

theorem c2_pre_mutation_failures_witness :
    (transcribeVideoDirect okPayload noKeyEnv (some TStatus.PROCESSING)).success = false
    ∧ (transcribeVideoDirect okPayload noKeyEnv (some TStatus.PROCESSING)).events
        = [Event.setStatus none]
    ∧ (transcribeVideoDirect okPayload noKeyEnv (some TStatus.PROCESSING)).status
        = (if noKeyEnv.videoExists then none else some TStatus.PROCESSING) :=
  c2_pre_mutation_failures okPayload noKeyEnv (some TStatus.PROCESSING) (Or.inl rfl)

/-- **C5** — the effective disable-transcript flag is resolved exactly as the
spec says (video-level if present, else organization-level, else false), and
whenever it is true the run sets `transcriptionStatus` to `SKIPPED`, returns
`{success: true}`, and makes no storage or transcription-provider call. -/
theorem c5_disabled_skips (p : Payload) (env : Env) (initStatus : Option TStatus)
    (row : QueryRow) (rest : List QueryRow) (video : VideoRow)
    (hkey : isTruthy env.assemblyKey = true)
    (hq : env.queryRows = row :: rest)
    (hv : row.video = some video)
    (hex : env.videoExists = true)
    (hdis : effectiveDisable video row.orgSettings = true) :
    (∀ (v : VideoRow) (o : Option OrgSettings),
        effectiveDisable v o
          = specEffectiveDisable (v.settings.bind fun s => s.disableTranscript)
              (o.bind fun s => s.disableTranscript))
    ∧ (transcribeVideoDirect p env initStatus).success = true
    ∧ (transcribeVideoDirect p env initStatus).status = some TStatus.SKIPPED
    ∧ hasStorageOrProviderCall (transcribeVideoDirect p env initStatus).events
        = false := by
  refine ⟨fun v o => rfl, ?_⟩
  simp [transcribeVideoDirect, runBody, hkey, hq, hv, hdis, hex, setStatus,
    hasStorageOrProviderCall, isStorageOrProviderCall]

/-- A query row whose video-level settings disable transcription. -/
def disabledRow : QueryRow :=
  { video := some { settings := some { disableTranscript := some true } }
    orgSettings := none
    bucketId := none }

/-- Like `okEnv` but the queried video disables transcription. -/
def disabledEnv : Env := { okEnv with queryRows := [disabledRow] }

theorem c5_disabled_skips_witness :
    effectiveDisable { settings := some { disableTranscript := some true } } none
      = specEffectiveDisable (some true) none
    ∧ (transcribeVideoDirect okPayload disabledEnv none).success = true
    ∧ (transcribeVideoDirect okPayload disabledEnv none).status = some TStatus.SKIPPED
    ∧ hasStorageOrProviderCall (transcribeVideoDirect okPayload disabledEnv none).events
        = false := by
  have h := c5_disabled_skips okPayload disabledEnv none disabledRow []
    { settings := some { disableTranscript := some true } }
    rfl rfl rfl rfl rfl
  exact ⟨by simpa using h.1 { settings := some { disableTranscript := some true } } none,
    h.2.1, h.2.2.1, h.2.2.2⟩

/-- **C6** — whenever the selected strategy's audio-track check reports no
audio track, the run sets `transcriptionStatus` to `NO_AUDIO`, returns
`{success: true}`, and never calls the transcription provider. -/
theorem c6_no_audio_skips (p : Payload) (env : Env) (initStatus : Option TStatus)
    (row : QueryRow) (rest : List QueryRow) (video : VideoRow) (url : String)
    (hkey : isTruthy env.assemblyKey = true)
    (hq : env.queryRows = row :: rest)
    (hv : row.video = some video)
    (hex : env.videoExists = true)
    (hdis : effectiveDisable video row.orgSettings = false)
    (hbucket : env.bucketAccess = Except.ok ())
    (hurl : env.signedVideoUrl = Except.ok url)
    (hfetch : env.fetchOk = true)
    (hnoaudio : (env.mediaServerConfigured = true ∧ env.checkAudioMedia = Except.ok false)
        ∨ (env.mediaServerConfigured = false ∧ env.checkAudioLocal = Except.ok false)) :
    (transcribeVideoDirect p env initStatus).success = true
    ∧ (transcribeVideoDirect p env initStatus).status = some TStatus.NO_AUDIO
    ∧ hasTranscribeCall (transcribeVideoDirect p env initStatus).events = false := by
  rcases hnoaudio with ⟨hm, hc⟩ | ⟨hm, hc⟩ <;>
    simp [transcribeVideoDirect, runBody, hkey, hq, hv, hdis, hex, hbucket, hurl,
      hfetch, hm, hc, setStatus, logEvent, hasTranscribeCall, isTranscribeCallEv]

/-- Like `okEnv` but the media-server audio-track check reports no audio. -/
def noAudioEnv : Env := { okEnv with checkAudioMedia := Except.ok false }

theorem c6_no_audio_skips_witness :
    (transcribeVideoDirect okPayload noAudioEnv none).success = true
    ∧ (transcribeVideoDirect okPayload noAudioEnv none).status = some TStatus.NO_AUDIO
    ∧ hasTranscribeCall (transcribeVideoDirect okPayload noAudioEnv none).events
        = false :=
  c6_no_audio_skips okPayload noAudioEnv none okRow [] { settings := none }
    "https://storage/video-signed" rfl rfl rfl rfl rfl rfl rfl rfl
    (Or.inl ⟨rfl, rfl⟩)

/-- **C4 counterexample** — in a fully successful run for user `u` and video
`v`, nothing is written under the key `u/v/audio-temp`: the staged audio goes
to `u/v/audio-temp.mp3` (and the artifact to `u/v/transcription.vtt`), so the
extension-less keys of the claim are never used. -/
theorem c4_counterexample_key_has_extension :
    (transcribeVideoDirect okPayload okEnv none).success = true
    ∧ hasPutObjectKey (transcribeVideoDirect okPayload okEnv none).events
        "u/v/audio-temp" = false
    ∧ hasPutObjectKey (transcribeVideoDirect okPayload okEnv none).events
        "u/v/transcription" = false
    ∧ hasPutObjectKey (transcribeVideoDirect okPayload okEnv none).events
        "u/v/audio-temp.mp3" = true
    ∧ hasPutObjectKey (transcribeVideoDirect okPayload okEnv none).events
        "u/v/transcription.vtt" = true := by decide

/-- **C4 (amended)** — in every successful transcribing run, the staged audio
object is written under `{userId}/{videoId}/audio-temp.mp3` with content type
`audio/mpeg`, and the final subtitle artifact under
`{userId}/{videoId}/transcription.vtt` with the subtitle content type
`text/vtt`. -/
theorem c4_object_keys (p : Payload) (env : Env) (initStatus : Option TStatus)
    (row : QueryRow) (rest : List QueryRow) (video : VideoRow) (url au tr : String)
    (hkey : isTruthy env.assemblyKey = true)
    (hq : env.queryRows = row :: rest)
    (hv : row.video = some video)
    (hex : env.videoExists = true)
    (hdis : effectiveDisable video row.orgSettings = false)
    (hbucket : env.bucketAccess = Except.ok ())
    (hurl : env.signedVideoUrl = Except.ok url)
    (hfetch : env.fetchOk = true)
    (haudio : (env.mediaServerConfigured = true ∧ env.checkAudioMedia = Except.ok true
          ∧ env.extractMedia = Except.ok ())
        ∨ (env.mediaServerConfigured = false ∧ env.checkAudioLocal = Except.ok true
          ∧ (∃ fp, env.extractLocal = Except.ok fp) ∧ env.readFile = Except.ok ()))
    (hput : env.putAudio = Except.ok ())
    (hsu : env.signedAudioUrl = Except.ok au)
    (htr : env.transcription = Except.ok tr)
    (hpt : env.putTranscript = Except.ok ()) :
    (transcribeVideoDirect p env initStatus).success = true
    ∧ (transcribeVideoDirect p env initStatus).status = some TStatus.COMPLETE
    ∧ hasPutObjectKeyCT (transcribeVideoDirect p env initStatus).events
        (p.userId ++ "/" ++ p.videoId ++ "/audio-temp.mp3") "audio/mpeg" = true
    ∧ hasPutObjectKeyCT (transcribeVideoDirect p env initStatus).events
        (p.userId ++ "/" ++ p.videoId ++ "/transcription.vtt") "text/vtt" = true := by
  rcases haudio with ⟨hm, hc, hx⟩ | ⟨hm, hc, ⟨fp, hx⟩, hr⟩ <;>
    simp [transcribeVideoDirect, runBody, afterExtract, hkey, hq, hv, hdis, hex,
      hbucket, hurl, hfetch, hm, hc, hx, hput, hsu, htr, hpt, setStatus, logEvent,
      hasPutObjectKeyCT]
  case _ => simp [hr]

theorem c4_object_keys_witness :
    (transcribeVideoDirect okPayload okEnv none).status = some TStatus.COMPLETE
    ∧ hasPutObjectKeyCT (transcribeVideoDirect okPayload okEnv none).events
        (okPayload.userId ++ "/" ++ okPayload.videoId ++ "/audio-temp.mp3")
        "audio/mpeg" = true
    ∧ hasPutObjectKeyCT (transcribeVideoDirect okPayload okEnv none).events
        (okPayload.userId ++ "/" ++ okPayload.videoId ++ "/transcription.vtt")
        "text/vtt" = true := by
  have h := c4_object_keys okPayload okEnv none okRow [] { settings := none }
    "https://storage/video-signed" "https://storage/audio-signed" "WEBVTT"
    rfl rfl rfl rfl rfl rfl rfl rfl (Or.inl ⟨rfl, rfl, rfl⟩) rfl rfl rfl rfl
  exact ⟨h.2.1, h.2.2.1, h.2.2.2⟩

/-- **C3 counterexample** — a run with `aiGenerationEnabled = true` that
reaches the success path (final status `COMPLETE`) never triggers the
downstream AI-generation step: the call is commented out in the source. -/
theorem c3_counterexample_no_ai_trigger :
    okPayload.aiGenerationEnabled = true
    ∧ (transcribeVideoDirect okPayload okEnv none).success = true
    ∧ (transcribeVideoDirect okPayload okEnv none).status = some TStatus.COMPLETE
    ∧ hasStartAiGeneration (transcribeVideoDirect okPayload okEnv none).events
        = false := by decide

theorem afterExtract_no_ai (p : Payload) (env : Env) (st : RunState) :
    hasStartAiGeneration (stateOf (afterExtract p env st)).2
      = hasStartAiGeneration st.2 := by
  unfold afterExtract
  cases env.putAudio <;> cases env.signedAudioUrl <;> cases env.transcription <;>
    cases env.putTranscript <;>
      simp [stateOf, logEvent, setStatus, hasStartAiGeneration, isStartAiEv,
        List.any_append]

theorem runBody_no_ai (p : Payload) (env : Env) (st : RunState) :
    hasStartAiGeneration (stateOf (runBody p env st)).2
      = hasStartAiGeneration st.2 := by
  unfold runBody
  repeat' split
  all_goals try simp only [afterExtract_no_ai]
  all_goals
    simp [stateOf, logEvent, setStatus, hasStartAiGeneration,
      isStartAiEv, List.any_append]

/-- **C3 (amended)** — no run of the pipeline ever triggers the downstream
AI-generation step, regardless of `aiGenerationEnabled`: the
`startAiGeneration` call is commented out in the source, so even fully
successful runs return without it. -/
theorem c3_ai_generation_never_triggered (p : Payload) (env : Env)
    (initStatus : Option TStatus) :
    hasStartAiGeneration (transcribeVideoDirect p env initStatus).events = false := by
  have h := runBody_no_ai p env (initStatus, [])
  cases hr : runBody p env (initStatus, []) with
  | ok pr =>
      obtain ⟨msg, st⟩ := pr
      rw [hr] at h
      simp [hasStartAiGeneration, stateOf] at h
      simpa [transcribeVideoDirect, hr, hasStartAiGeneration] using h
  | error pr =>
      obtain ⟨msg, st⟩ := pr
      rw [hr] at h
      simp [hasStartAiGeneration, stateOf] at h
      simp [transcribeVideoDirect, hr, setStatus, hasStartAiGeneration,
        List.any_append, isStartAiEv]
      simpa [hasStartAiGeneration] using h

/-- A provider job that reached terminal status `completed`. -/
def completedResult : AssemblyAIResult :=
  { id := "job1", status := "completed", text := some "hello"
    utterances := none, error := none }

theorem c9_transcribe_failure_modes_witness :
    transcribeWithAssemblyAI (some "test-key") (Except.ok "job1")
        [PollStep.ok completedResult]
      = some (Except.ok (formatToWebVTT completedResult)) :=
  (c9_transcribe_failure_modes (some "test-key") (Except.ok "job1")
    [PollStep.ok completedResult] rfl).2 "job1" completedResult rfl rfl rfl
